import Mathlib

/-!
Verification of the conversation/orchestration layer of the `subfix`
repository (a Telegram-driven audio-to-YouTube upload workflow).

The Python sources are shallowly embedded:

* `app/services/conversation.py` (`ConversationManager`) becomes pure
  functions over a `Mgr` record that carries the in-memory ORM object
  (`mem`), the persisted row (`db`) and the account table; `db.commit()`
  becomes `db_commit`, which flushes every pending object mutation to the
  row, as a SQLAlchemy session commit does.
* `app/routers/telegram.py` (the webhook's text path) and
  `app/services/telethon_client.py` (the auth handshake state and the
  upload orchestrator) are embedded likewise; the external collaborators
  `process_uploaded_audio` and `upload_video` (out of scope per the spec)
  enter as `Except`-valued oracles.

Python's `str.strip`/`str.lower`/`int()` are embedded as structural
functions over `List Char` (`stripStr`, `lowerStr`, `pyInt`) so that the
kernel can evaluate them; they agree with Python on the ASCII inputs the
program compares against.
-/

namespace Subfix

/-- ASCII lower-casing of one character, as Python's `str.lower` acts on the
ASCII command words the program compares against. -/
def lowerChar (c : Char) : Char :=
  if c.toNat ≥ 65 ∧ c.toNat ≤ 90 then Char.ofNat (c.toNat + 32) else c

/-- Embedding of Python's `str.lower()`. -/
def lowerStr (s : String) : String := String.mk (s.data.map lowerChar)

/-- The whitespace characters Python's `str.strip()` removes (ASCII ones). -/
def isSpaceChar (c : Char) : Bool :=
  c = ' ' || c = '\t' || c = '\n' || c = '\r' || c = '\x0b' || c = '\x0c'

/-- Embedding of Python's `str.strip()`: drop whitespace at both ends. -/
def stripStr (s : String) : String :=
  String.mk (((s.data.dropWhile isSpaceChar).reverse.dropWhile isSpaceChar).reverse)

/-- Decimal digit test for `pyInt`. -/
def isDigitChar (c : Char) : Bool := 48 ≤ c.toNat && c.toNat ≤ 57

/-- Value of a digit string (all characters `0`-`9`). -/
def digitsVal (l : List Char) : Nat := l.foldl (fun acc c => acc * 10 + (c.toNat - 48)) 0

/-- A non-empty all-digit list parses; anything else raises `ValueError`. -/
def parseDigits (l : List Char) : Option Nat :=
  if l ≠ [] ∧ l.all isDigitChar then some (digitsVal l) else none

/-- Embedding of Python's `int(s)` on already-stripped input: optional sign,
then decimal digits; `none` models the `ValueError` branch. -/
def pyInt (s : String) : Option Int :=
  match s.data with
  | '-' :: rest => (parseDigits rest).map (fun n => -(n : Int))
  | '+' :: rest => (parseDigits rest).map (fun n => (n : Int))
  | l => (parseDigits l).map (fun n => (n : Int))

/-- One row of the `accounts` table (`app.database.Account`): id, unique
name, and the opaque credentials-file location. -/
structure Account where
  id : Nat
  name : String
  credentials_path : String
deriving DecidableEq

instance : Inhabited Account := ⟨⟨0, "", ""⟩⟩

/-- One row of the `conversations` table (`app.database.Conversation`),
restricted to the fields the conversation layer reads and writes.
`youtube_url` is the legacy video-URL column. -/
structure Conversation where
  state : String
  account_id : Option Nat
  audio_path : Option String
  title : Option String
  description : Option String
  thumbnail_path : Option String
  privacy : String
  youtube_url : Option String
deriving DecidableEq

/-- Modelled from the spec: `app.database` is not under src/, so the row a
user's first message creates is taken from spec §3 — initial state `idle`,
all nullable fields null, `privacy` defaulting to `public`
(`_get_or_create_conversation` passes only `state="idle"`; the remaining
columns take their declared defaults). -/
def initial_conversation : Conversation :=
  { state := "idle", account_id := none, audio_path := none, title := none,
    description := none, thumbnail_path := none, privacy := "public",
    youtube_url := none }

/-- What a `ConversationManager` call works on: the in-memory ORM object
`mem`, the persisted row `db`, and the account table. An attribute
assignment mutates `mem` only; `db_commit` persists it. The account table
is single-layered because every account mutation in the source is followed
immediately by a commit. -/
structure Mgr where
  mem : Conversation
  db : Conversation
  accounts : List Account
deriving DecidableEq

/-- `self.db.commit()`: the pending object mutations become the row. -/
def db_commit (m : Mgr) : Mgr := { m with db := m.mem }

/-- The field values `reset()` assigns (conversation.py lines 42-54). -/
def cleared_row : Conversation :=
  { state := "idle", account_id := none, audio_path := none, title := none,
    description := none, thumbnail_path := none, privacy := "public",
    youtube_url := none }

/-- `ConversationManager.reset`: clear every optional field, put the state
back to `idle`, set privacy to `public`, and commit. -/
def reset (m : Mgr) : Mgr := db_commit { m with mem := cleared_row }

/-- The `str | dict` return of `process_message` as a tagged variant:
`text` is a plain reply, `action` is the side-action dict
`{"action": ..., "account_name": ...}`. -/
inductive Response where
  | text (s : String)
  | action (action : String) (account_name : String)
deriving DecidableEq

/-- `ConversationManager._help_message`. -/
def _help_message : String :=
  "Commands:\n• upload - Start new upload\n• add - Add account\n• remove - Remove account\n• accounts - List accounts\n• cancel - Cancel current action"

/-- `ConversationManager._list_accounts`. -/
def _list_accounts (accounts : List Account) : String :=
  if accounts = [] then "No accounts. Send 'add' to add one."
  else "Your accounts:\n" ++ String.intercalate "\n" (accounts.map (fun a => "• " ++ a.name))

/-- The 1-based numbered account list `"\n".join(f"{i+1}. {a.name}" ...)`. -/
def numbered_account_list (accounts : List Account) : String :=
  String.intercalate "\n" (accounts.enum.map (fun p => toString (p.1 + 1) ++ ". " ++ p.2.name))

/-- `ConversationManager._handle_adding_account` (lines 191-206): empty name
reprompts; an existing name resets with the already-exists notice; a new
name returns the `create_account` side-action dict with the trimmed name,
mutating nothing. -/
def _handle_adding_account (m : Mgr) (account_name : String) : Mgr × Response :=
  if account_name = "" then
    (m, .text "Please enter a valid account name.")
  else if (m.accounts.find? (fun a => a.name == account_name)).isSome then
    (reset m, .text ("Account '" ++ account_name ++ "' already exists."))
  else
    (m, .action "create_account" account_name)

/-- `ConversationManager._handle_removing_account` (lines 208-229). The
credentials-file unlink acts on the file system only and is not modelled;
the row deletion is `eraseIdx` on the account table. -/
def _handle_removing_account (m : Mgr) (message : String) : Mgr × Response :=
  let accounts := m.accounts
  match pyInt message with
  | none => (m, .text "Enter the number of the account to remove.")
  | some choice =>
    if 1 ≤ choice ∧ choice ≤ accounts.length then
      let account := accounts.getD ((choice - 1).toNat) default
      let m := { m with accounts := accounts.eraseIdx ((choice - 1).toNat) }
      (reset (db_commit m), .text ("Removed '" ++ account.name ++ "'."))
    else
      (m, .text ("Enter a number between 1 and " ++ toString accounts.length ++ "."))

/-- The account-selection block that `process_message` duplicates at lines
84-97 (state `idle`) and 98-111 (state `awaiting_audio`), and that
`_handle_audio_upload` repeats after clearing the legacy URL: exactly one
account auto-selects it and moves to `awaiting_title`; otherwise move to
`awaiting_account` with the numbered list. -/
def _audio_account_select (m : Mgr) : Mgr × Response :=
  match m.accounts with
  | [a] =>
    (db_commit { m with mem := { m.mem with account_id := some a.id, state := "awaiting_title" } },
     .text ("Using " ++ a.name ++ ". Enter video title:"))
  | _ =>
    (db_commit { m with mem := { m.mem with state := "awaiting_account" } },
     .text ("Choose account:\n" ++ numbered_account_list m.accounts ++ "\n\nReply with number:"))

/-- `ConversationManager._handle_audio_upload` (lines 231-247): clear the
legacy URL, then the shared account-selection block. -/
def _handle_audio_upload (m : Mgr) : Mgr × Response :=
  _audio_account_select { m with mem := { m.mem with youtube_url := none } }

/-- `ConversationManager._handle_awaiting_account` (lines 249-261). -/
def _handle_awaiting_account (m : Mgr) (message : String) : Mgr × Response :=
  let accounts := m.accounts
  match pyInt message with
  | none => (m, .text "Enter the account number.")
  | some choice =>
    if 1 ≤ choice ∧ choice ≤ accounts.length then
      let account := accounts.getD ((choice - 1).toNat) default
      (db_commit { m with mem := { m.mem with account_id := some account.id, state := "awaiting_title" } },
       .text ("Using " ++ account.name ++ ". Enter video title:"))
    else
      (m, .text ("Enter 1-" ++ toString accounts.length ++ "."))

/-- `ConversationManager._handle_awaiting_title` (lines 263-266): advance to
`awaiting_description` and commit; the message itself is not stored. -/
def _handle_awaiting_title (m : Mgr) (_message : String) : Mgr × Response :=
  (db_commit { m with mem := { m.mem with state := "awaiting_description" } },
   .text "Description? (or 'skip'):")

/-- `ConversationManager._handle_awaiting_description` (lines 268-271):
advance to `awaiting_thumbnail` and commit; the message is not stored. -/
def _handle_awaiting_description (m : Mgr) (_message : String) : Mgr × Response :=
  (db_commit { m with mem := { m.mem with state := "awaiting_thumbnail" } },
   .text "Send thumbnail image:")

/-- `ConversationManager._handle_awaiting_thumbnail` (lines 273-283). -/
def _handle_awaiting_thumbnail (m : Mgr) (message : String) (media_url : Option String) : Mgr × Response :=
  match media_url with
  | some url =>
    (db_commit { m with mem := { m.mem with thumbnail_path := some url, state := "awaiting_privacy" } },
     .text "Privacy? (public / unlisted / private):")
  | none =>
    if message ∈ (["auto", "default", "original", "skip"] : List String) then
      (db_commit { m with mem := { m.mem with thumbnail_path := none, state := "awaiting_privacy" } },
       .text "Privacy? (public / unlisted / private):")
    else
      (m, .text "Send an image or reply 'auto'.")

/-- The `privacy_map` dict of `_handle_awaiting_privacy`. -/
def privacy_map (s : String) : Option String :=
  if s = "public" ∨ s = "1" then some "public"
  else if s = "unlisted" ∨ s = "2" then some "unlisted"
  else if s = "private" ∨ s = "3" then some "private"
  else none

/-- `ConversationManager._handle_awaiting_privacy` (lines 285-298). -/
def _handle_awaiting_privacy (m : Mgr) (message : String) : Mgr × Response :=
  match privacy_map message with
  | none => (m, .text "Reply: public, unlisted, or private")
  | some p =>
    (db_commit { m with mem := { m.mem with privacy := p, state := "processing" } },
     .text "Processing... This may take a few minutes.")

/-- The state-specific chain of `process_message` from line 113 on: `state`
is the value read before the audio block ran. -/
def _dispatch_state (m : Mgr) (state message message_lower : String)
    (media_url audio_path : Option String) : Mgr × Response :=
  if state = "idle" then
    if message_lower ∈ (["add", "add account"] : List String) then
      (db_commit { m with mem := { m.mem with state := "adding_account" } },
       .text "Enter a name for this account (e.g. MusicChannel):")
    else if message_lower ∈ (["remove", "remove account", "delete", "delete account"] : List String) then
      if m.accounts = [] then (m, .text "No accounts to remove.")
      else
        (db_commit { m with mem := { m.mem with state := "removing_account" } },
         .text ("Which account to remove?\n" ++ numbered_account_list m.accounts ++ "\n\nReply with number:"))
    else if message_lower ∈ (["upload", "start", "new"] : List String) then
      if m.accounts = [] then (m, .text "No accounts yet. Send 'add' to add an account first.")
      else
        (db_commit { m with mem := { m.mem with state := "awaiting_audio" } },
         .text "Send an audio file directly (.mp3, .m4a, .wav, .flac, .aac, .ogg, .opus, .wma, .m4p, .mp2, .mpa, .mpc, .ape, .aiff, .au, .m3u, .m4b, .oga, .wv, .tta).")
    else
      (m, .text "Commands:\n• upload - Start upload\n• add - Add account\n• remove - Remove account\n• accounts - List accounts")
  else if state = "adding_account" then
    _handle_adding_account m (stripStr message)
  else if state = "removing_account" then
    _handle_removing_account m message_lower
  else if state = "awaiting_audio" then
    if message_lower ∈ (["add", "add account"] : List String) then
      (db_commit { m with mem := { m.mem with state := "adding_account" } },
       .text "Enter a name for this account (e.g. MusicChannel):")
    else
      match audio_path with
      | some ap => _handle_audio_upload { m with mem := { m.mem with audio_path := some ap } }
      | none => (m, .text "Please send an audio file. (Or type 'cancel' to go back, 'add' to add account)")
  else if state = "awaiting_account" then
    _handle_awaiting_account m message_lower
  else if state = "awaiting_title" then
    _handle_awaiting_title m message
  else if state = "awaiting_description" then
    _handle_awaiting_description m message
  else if state = "awaiting_thumbnail" then
    _handle_awaiting_thumbnail m message_lower media_url
  else if state = "awaiting_privacy" then
    _handle_awaiting_privacy m message_lower
  else if state = "processing" then
    (m, .text "Still processing... Please wait.")
  else
    (reset m, .text "Something went wrong. Send 'upload' to start.")

/-- `ConversationManager.process_message` (lines 59-173): global commands
first; then, if an audio file accompanies the message, store it on the
conversation and clear the legacy URL regardless of state, running the
account-selection block when the state is `idle` or `awaiting_audio`;
otherwise fall through to the state-specific chain. -/
def process_message (m : Mgr) (message : String)
    (media_url audio_path : Option String) : Mgr × Response :=
  let message_lower := lowerStr (stripStr message)
  let state := m.mem.state
  if message_lower ∈ (["cancel", "stop", "quit"] : List String) then
    (reset m, .text "Cancelled. Send 'upload' to start.")
  else if message_lower ∈ (["help", "?"] : List String) then
    (m, .text _help_message)
  else if message_lower = "accounts" then
    (m, .text (_list_accounts m.accounts))
  else
    match audio_path with
    | some ap =>
      let m' := { m with mem := { m.mem with audio_path := some ap, youtube_url := none } }
      if state = "idle" then _audio_account_select m'
      else if state = "awaiting_audio" then _audio_account_select m'
      else _dispatch_state m' state message message_lower media_url audio_path
    | none =>
      _dispatch_state m state message message_lower media_url none

/-- `ConversationManager.set_title` (lines 300-302). -/
def set_title (m : Mgr) (title : String) : Mgr :=
  db_commit { m with mem := { m.mem with title := some title } }

/-- `ConversationManager.set_description` (lines 304-309). -/
def set_description (m : Mgr) (description : String) : Mgr :=
  if lowerStr description ∉ (["skip", "none", "-"] : List String) then
    db_commit { m with mem := { m.mem with description := some description } }
  else
    db_commit { m with mem := { m.mem with description := some "" } }

/-- The account row `get_upload_data` loads:
`db.query(Account).filter(Account.id == self.conversation.account_id).first()`.
A null `account_id` compares as SQL `NULL` and matches no row. -/
def find_account_by_id (accounts : List Account) (account_id : Option Nat) : Option Account :=
  match account_id with
  | none => none
  | some i => accounts.find? (fun a => a.id == i)

/-- The dict `ConversationManager.get_upload_data` returns (lines 311-321);
`description` is `self.conversation.description or ""`. -/
structure UploadData where
  youtube_url : Option String
  audio_path : Option String
  account : Option Account
  title : Option String
  description : String
  thumbnail_path : Option String
  privacy : String
deriving DecidableEq

/-- `ConversationManager.get_upload_data` (lines 311-321). -/
def get_upload_data (m : Mgr) : UploadData :=
  { youtube_url := m.mem.youtube_url,
    audio_path := m.mem.audio_path,
    account := find_account_by_id m.accounts m.mem.account_id,
    title := m.mem.title,
    description := m.mem.description.getD "",
    thumbnail_path := m.mem.thumbnail_path,
    privacy := m.mem.privacy }

/-- What one orchestrator run leaves behind: the persisted row when `run`
returns, the texts sent to the user in order, and whether each external
collaborator (`process_uploaded_audio`, `upload_video`) was invoked. -/
structure RunResult where
  conv : Conversation
  messages : List String
  process_called : Bool
  upload_called : Bool
deriving DecidableEq

/-- `TelegramMTProtoClient.process_and_upload_async`
(telethon_client.py lines 250-321; the webhook router's
`process_and_upload_async` in telegram.py lines 67-119 is the same logic
with `send_telegram_message` for sends and `f"Error: ..."` as the error
text). A fresh manager is built on the persisted row. The two external
collaborators are passed in as oracles: `.ok v` is the value the call
returned, `.error e` the exception it raised. `send_message` swallows its
own errors (lines 237-248) and `cleanup_temp_files` is best-effort per
spec §6, so neither raises here. Any caught exception sends the error text
and resets the conversation; the success path ends in `mark_complete`,
which is `reset`. -/
def process_and_upload_async (conv : Conversation) (accounts : List Account)
    (process_result upload_result : Except String String) : RunResult :=
  let m : Mgr := { mem := conv, db := conv, accounts := accounts }
  let data := get_upload_data m
  match data.account with
  | none =>
    { conv := (reset m).db, messages := ["Error: No account selected."],
      process_called := false, upload_called := false }
  | some _account =>
    match data.audio_path with
    | none =>
      { conv := m.db, messages := [], process_called := false, upload_called := false }
    | some _ap =>
      match process_result with
      | .error e =>
        { conv := (reset m).db,
          messages := ["Processing uploaded audio...", "Error processing upload: " ++ e],
          process_called := true, upload_called := false }
      | .ok _video_path =>
        match upload_result with
        | .error e =>
          { conv := (reset m).db,
            messages := ["Processing uploaded audio...", "Uploading to YouTube...",
                         "Error processing upload: " ++ e],
            process_called := true, upload_called := true }
        | .ok video_url =>
          { conv := (reset m).db,
            messages := ["Processing uploaded audio...", "Uploading to YouTube...",
                         "Done!\n" ++ video_url],
            process_called := true, upload_called := true }

/-- The process-wide authentication handshake state held on
`TelegramMTProtoClient` (telethon_client.py lines 31-39): the two waiting
flags, the pending one-shot values, and the two `asyncio.Event`s (a set
event is `true`). -/
structure AuthState where
  is_running : Bool
  waiting_for_code : Bool
  waiting_for_password : Bool
  pending_code : Option String
  pending_password : Option String
  auth_code_event : Bool
  auth_password_event : Bool
deriving DecidableEq

/-- `TelegramMTProtoClient.submit_code` (lines 106-110): store the stripped
code and set the event. -/
def submit_code (s : AuthState) (code : String) : AuthState :=
  { s with pending_code := some (stripStr code), auth_code_event := true }

/-- `TelegramMTProtoClient.submit_password` (lines 112-116): store the
password as given and set the event. -/
def submit_password (s : AuthState) (password : String) : AuthState :=
  { s with pending_password := some password, auth_password_event := true }

/-- The JSON body an `/auth/*` endpoint returns. -/
inductive AuthApiResult where
  | rejected (error : String)
  | accepted (status : String)
deriving DecidableEq

/-- `GET /mtproto/auth/code` (routers/mtproto_telegram.py lines 90-97):
refuse unless `waiting_for_code`, else forward to `submit_code`. -/
def submit_auth_code (s : AuthState) (code : String) : AuthState × AuthApiResult :=
  if !s.waiting_for_code then
    (s, .rejected "Not waiting for a verification code")
  else
    (submit_code s code, .accepted "Code submitted successfully. Authentication in progress...")

/-- `GET /mtproto/auth/password` (routers/mtproto_telegram.py lines
100-107): refuse unless `waiting_for_password`, else forward to
`submit_password`. -/
def submit_auth_password (s : AuthState) (password : String) : AuthState × AuthApiResult :=
  if !s.waiting_for_password then
    (s, .rejected "Not waiting for a 2FA password")
  else
    (submit_password s password, .accepted "Password submitted successfully. Authentication in progress...")

/-- The text path of `telegram_webhook` (routers/telegram.py lines
267-277) for an update with no photo and no audio: the caller reads the
state once, stores the trimmed text as title or description when the
conversation awaits one, then dispatches to `process_message` with the raw
text and no media. -/
def telegram_webhook_text (m : Mgr) (text : String) : Mgr × Response :=
  let state := m.mem.state
  let original_text := stripStr text
  let m := if state = "awaiting_title" then set_title m original_text else m
  let m := if state = "awaiting_description" then set_description m original_text else m
  process_message m text none none

end Subfix

open Subfix

/-! Helper lemmas shared by several claims. -/

/-- The duplicated account-selection block always replies with plain text,
never with a side-action dict. -/
lemma _audio_account_select_text (m : Mgr) :
    ∃ s, (_audio_account_select m).2 = Response.text s := by
  unfold _audio_account_select
  split
  · exact ⟨_, rfl⟩
  · exact ⟨_, rfl⟩

/-- `_handle_audio_upload` always replies with plain text. -/
lemma _handle_audio_upload_text (m : Mgr) :
    ∃ s, (_handle_audio_upload m).2 = Response.text s := by
  unfold _handle_audio_upload
  exact _audio_account_select_text _

/-- Frame property of the state-specific chain for states other than `idle`
and `awaiting_audio`: every handler either leaves the in-memory
`audio_path` and legacy `youtube_url` untouched or resets the whole
conversation to the cleared row. -/
lemma dispatch_frame (m : Mgr) (state message message_lower : String)
    (media_url audio_path : Option String)
    (h1 : state ≠ "idle") (h2 : state ≠ "awaiting_audio") :
    ((_dispatch_state m state message message_lower media_url audio_path).1.mem.audio_path = m.mem.audio_path ∧
     (_dispatch_state m state message message_lower media_url audio_path).1.mem.youtube_url = m.mem.youtube_url) ∨
    (_dispatch_state m state message message_lower media_url audio_path).1.mem = cleared_row := by
  rw [_dispatch_state.eq_def, if_neg h1]
  by_cases hA : state = "adding_account"
  · rw [if_pos hA]
    unfold _handle_adding_account
    split
    · exact Or.inl ⟨rfl, rfl⟩
    split
    · exact Or.inr rfl
    · exact Or.inl ⟨rfl, rfl⟩
  rw [if_neg hA]
  by_cases hR : state = "removing_account"
  · rw [if_pos hR]
    unfold _handle_removing_account
    split
    · exact Or.inl ⟨rfl, rfl⟩
    · dsimp only
      split
      · exact Or.inr rfl
      · exact Or.inl ⟨rfl, rfl⟩
  rw [if_neg hR, if_neg h2]
  by_cases hAc : state = "awaiting_account"
  · rw [if_pos hAc]
    unfold _handle_awaiting_account
    split
    · exact Or.inl ⟨rfl, rfl⟩
    · dsimp only
      split
      · exact Or.inl ⟨rfl, rfl⟩
      · exact Or.inl ⟨rfl, rfl⟩
  rw [if_neg hAc]
  by_cases hT : state = "awaiting_title"
  · rw [if_pos hT]
    exact Or.inl ⟨rfl, rfl⟩
  rw [if_neg hT]
  by_cases hD : state = "awaiting_description"
  · rw [if_pos hD]
    exact Or.inl ⟨rfl, rfl⟩
  rw [if_neg hD]
  by_cases hTh : state = "awaiting_thumbnail"
  · rw [if_pos hTh]
    unfold _handle_awaiting_thumbnail
    split
    · exact Or.inl ⟨rfl, rfl⟩
    split
    · exact Or.inl ⟨rfl, rfl⟩
    · exact Or.inl ⟨rfl, rfl⟩
  rw [if_neg hTh]
  by_cases hP : state = "awaiting_privacy"
  · rw [if_pos hP]
    unfold _handle_awaiting_privacy
    split
    · exact Or.inl ⟨rfl, rfl⟩
    · exact Or.inl ⟨rfl, rfl⟩
  rw [if_neg hP]
  by_cases hPr : state = "processing"
  · rw [if_pos hPr]
    exact Or.inl ⟨rfl, rfl⟩
  rw [if_neg hPr]
  exact Or.inr rfl

/-- The state-specific chain returns a side-action dict only from the
`adding_account` handler, and that dict carries the trimmed message as the
account name. -/
lemma dispatch_action (m : Mgr) (state message message_lower : String)
    (media_url audio_path : Option String) (act n : String)
    (h : (_dispatch_state m state message message_lower media_url audio_path).2 = Response.action act n) :
    state = "adding_account" ∧ act = "create_account" ∧ n = stripStr message := by
  rw [_dispatch_state.eq_def] at h
  by_cases hI : state = "idle"
  · rw [if_pos hI] at h
    split at h
    · simp at h
    · split at h
      · split at h <;> simp at h
      · split at h
        · split at h <;> simp at h
        · simp at h
  rw [if_neg hI] at h
  by_cases hA : state = "adding_account"
  · rw [if_pos hA] at h
    unfold _handle_adding_account at h
    split at h
    · simp at h
    · split at h
      · simp at h
      · simp only [Response.action.injEq] at h
        exact ⟨hA, h.1.symm, h.2.symm⟩
  rw [if_neg hA] at h
  by_cases hR : state = "removing_account"
  · rw [if_pos hR] at h
    unfold _handle_removing_account at h
    split at h
    · simp at h
    · dsimp only at h
      split at h <;> simp at h
  rw [if_neg hR] at h
  by_cases hAu : state = "awaiting_audio"
  · rw [if_pos hAu] at h
    split at h
    · simp at h
    · split at h
      · rename_i ap'
        obtain ⟨s, hs⟩ := _handle_audio_upload_text
          { m with mem := { m.mem with audio_path := some ap' } }
        rw [hs] at h
        simp at h
      · simp at h
  rw [if_neg hAu] at h
  by_cases hAc : state = "awaiting_account"
  · rw [if_pos hAc] at h
    unfold _handle_awaiting_account at h
    split at h
    · simp at h
    · dsimp only at h
      split at h <;> simp at h
  rw [if_neg hAc] at h
  by_cases hT : state = "awaiting_title"
  · rw [if_pos hT] at h
    unfold _handle_awaiting_title at h
    simp at h
  rw [if_neg hT] at h
  by_cases hD : state = "awaiting_description"
  · rw [if_pos hD] at h
    unfold _handle_awaiting_description at h
    simp at h
  rw [if_neg hD] at h
  by_cases hTh : state = "awaiting_thumbnail"
  · rw [if_pos hTh] at h
    unfold _handle_awaiting_thumbnail at h
    split at h
    · simp at h
    · split at h <;> simp at h
  rw [if_neg hTh] at h
  by_cases hP : state = "awaiting_privacy"
  · rw [if_pos hP] at h
    unfold _handle_awaiting_privacy at h
    split at h <;> simp at h
  rw [if_neg hP] at h
  by_cases hPr : state = "processing"
  · rw [if_pos hPr] at h
    simp at h
  rw [if_neg hPr] at h
  simp at h

/-- A `process_message` call that returns a side-action dict did so with
the trimmed message as the name, and only after every global-command check
fell through. -/
lemma process_action_shape (m : Mgr) (message : String)
    (media_url audio_path : Option String) (act n : String)
    (h : (process_message m message media_url audio_path).2 = Response.action act n) :
    n = stripStr message ∧
    lowerStr (stripStr message) ∉
      (["cancel", "stop", "quit", "help", "?", "accounts"] : List String) := by
  rw [process_message.eq_def] at h
  simp only at h
  by_cases c1 : lowerStr (stripStr message) ∈ (["cancel", "stop", "quit"] : List String)
  · rw [if_pos c1] at h
    simp at h
  rw [if_neg c1] at h
  by_cases c2 : lowerStr (stripStr message) ∈ (["help", "?"] : List String)
  · rw [if_pos c2] at h
    simp at h
  rw [if_neg c2] at h
  by_cases c3 : lowerStr (stripStr message) = "accounts"
  · rw [if_pos c3] at h
    simp at h
  rw [if_neg c3] at h
  have hmem : lowerStr (stripStr message) ∉
      (["cancel", "stop", "quit", "help", "?", "accounts"] : List String) := by
    simp only [List.mem_cons, List.mem_singleton, not_or] at c1 c2 ⊢
    refine ⟨c1.1, c1.2.1, c1.2.2.1, c2.1, c2.2.1, ?_⟩
    simpa using c3
  refine ⟨?_, hmem⟩
  rcases haud : audio_path with - | ap
  · rw [haud] at h
    exact (dispatch_action _ _ _ _ _ _ _ _ h).2.2
  · rw [haud] at h
    dsimp only at h
    by_cases hs1 : m.mem.state = "idle"
    · rw [if_pos hs1] at h
      obtain ⟨s, hs⟩ := _audio_account_select_text
        { m with mem := { m.mem with audio_path := some ap, youtube_url := none } }
      rw [hs] at h
      simp at h
    rw [if_neg hs1] at h
    by_cases hs2 : m.mem.state = "awaiting_audio"
    · rw [if_pos hs2] at h
      obtain ⟨s, hs⟩ := _audio_account_select_text
        { m with mem := { m.mem with audio_path := some ap, youtube_url := none } }
      rw [hs] at h
      simp at h
    rw [if_neg hs2] at h
    exact (dispatch_action _ _ _ _ _ _ _ _ h).2.2

/-! Claim C1. -/

/-- The account table for the C1 trace: exactly one configured account. -/
def c1_accounts : List Account :=
  [{ id := 1, name := "MusicChannel", credentials_path := "/creds/MusicChannel_credentials.pickle" }]

/-- A fresh user's manager: the lazily created `idle` row. -/
def c1_m0 : Mgr := { mem := initial_conversation, db := initial_conversation, accounts := c1_accounts }

/-- The user sends an audio file (the Telethon handler passes the empty
message text of a bare media message). -/
def c1_m1 : Mgr := (process_message c1_m0 "" none (some "/tmp/audio_1.mp3")).1

/-- The user answers the `Enter video title:` prompt. -/
def c1_m2 : Mgr := (process_message c1_m1 "My Title" none none).1

/-- The user answers the description prompt. -/
def c1_m3 : Mgr := (process_message c1_m2 "A description" none none).1

/-- The user answers the thumbnail prompt with `auto`. -/
def c1_m4 : Mgr := (process_message c1_m3 "auto" none none).1

/-- The user answers the privacy prompt. -/
def c1_m5 : Mgr := (process_message c1_m4 "public" none none).1

/-- C1: refuted as stated — the claimed invariant "when state is
`processing`, the fields account_id, audio_path, title and privacy are all
non-null" fails for `title` on conversations reachable through
`process_message` alone (which is exactly how the Telethon handler drives
the machine: it never calls `set_title`). The five-message trace above
reaches persisted state `processing` with `title` still null, while the
other three fields are populated. `_handle_awaiting_title` advances the
state without storing the message; only the webhook caller compensates via
`set_title`. -/
theorem C1_processing_reachable_with_null_title :
    c1_m1.db.state = "awaiting_title" ∧
    c1_m5.db.state = "processing" ∧
    c1_m5.db.title = none ∧
    c1_m5.db.account_id = some 1 ∧
    c1_m5.db.audio_path = some "/tmp/audio_1.mp3" ∧
    c1_m5.db.privacy = "public" := by decide

/-! Claim C2. -/

/-- C2: in every state, a message whose trimmed, lowercased text is
`cancel`, `stop` or `quit` resets the persisted conversation to `idle`
with `account_id`, `audio_path`, `title`, `description`, `thumbnail_path`
and the legacy video URL all null, `privacy` back to `public`, and the
cancellation notice as the reply. -/
theorem C2_cancel_resets_every_state (m : Mgr) (message : String)
    (media_url audio_path : Option String)
    (h : lowerStr (stripStr message) ∈ (["cancel", "stop", "quit"] : List String)) :
    (process_message m message media_url audio_path).1.db.state = "idle" ∧
    (process_message m message media_url audio_path).1.db.account_id = none ∧
    (process_message m message media_url audio_path).1.db.audio_path = none ∧
    (process_message m message media_url audio_path).1.db.title = none ∧
    (process_message m message media_url audio_path).1.db.description = none ∧
    (process_message m message media_url audio_path).1.db.thumbnail_path = none ∧
    (process_message m message media_url audio_path).1.db.youtube_url = none ∧
    (process_message m message media_url audio_path).1.db.privacy = "public" ∧
    (process_message m message media_url audio_path).2 =
      Response.text "Cancelled. Send 'upload' to start." := by
  rcases (by simpa using h : lowerStr (stripStr message) = "cancel" ∨
      lowerStr (stripStr message) = "stop" ∨ lowerStr (stripStr message) = "quit") with h1 | h1 | h1 <;>
    simp [process_message, h1, reset, db_commit, cleared_row]

/-- A mid-workflow conversation with every optional field populated, used
to witness C2. -/
def c2_conv : Conversation :=
  { state := "awaiting_privacy", account_id := some 7, audio_path := some "/tmp/a.mp3",
    title := some "T", description := some "D", thumbnail_path := some "/tmp/t.jpg",
    privacy := "unlisted", youtube_url := some "https://youtu.be/x" }

/-- Manager fixture for the C2 witness. -/
def c2_m : Mgr := { mem := c2_conv, db := c2_conv, accounts := [⟨7, "Chan", "/creds/c.pickle"⟩] }

/-- Witness for C2 at a concrete mid-workflow conversation and the message
`" CANCEL "`. -/
theorem C2_cancel_resets_every_state_witness :
    lowerStr (stripStr " CANCEL ") ∈ (["cancel", "stop", "quit"] : List String) ∧
    ((process_message c2_m " CANCEL " none none).1.db.state = "idle" ∧
     (process_message c2_m " CANCEL " none none).1.db.account_id = none ∧
     (process_message c2_m " CANCEL " none none).1.db.audio_path = none ∧
     (process_message c2_m " CANCEL " none none).1.db.title = none ∧
     (process_message c2_m " CANCEL " none none).1.db.description = none ∧
     (process_message c2_m " CANCEL " none none).1.db.thumbnail_path = none ∧
     (process_message c2_m " CANCEL " none none).1.db.youtube_url = none ∧
     (process_message c2_m " CANCEL " none none).1.db.privacy = "public" ∧
     (process_message c2_m " CANCEL " none none).2 =
       Response.text "Cancelled. Send 'upload' to start.") :=
  ⟨by decide, C2_cancel_resets_every_state c2_m " CANCEL " none none (by decide)⟩

/-! Claim C3. -/

/-- C3: whenever the orchestrator's loaded data has an account and an audio
reference and one of the external steps raises (audio processing or
publish — the fallible steps among 1-5; the account-missing case is the
defined step-2 path, and sends never raise), the exception is caught, an
error text is among the messages sent, and the persisted state is `idle`,
not `processing`, when the run returns. -/
theorem C3_orchestrator_failure_resets_to_idle (conv : Conversation) (accounts : List Account)
    (process_result upload_result : Except String String) (acct : Account) (ap : String)
    (hacct : find_account_by_id accounts conv.account_id = some acct)
    (haud : conv.audio_path = some ap)
    (hexc : (∃ e, process_result = .error e) ∨ (∃ e, upload_result = .error e)) :
    (process_and_upload_async conv accounts process_result upload_result).conv.state = "idle" ∧
    (∃ e, ("Error processing upload: " ++ e) ∈
      (process_and_upload_async conv accounts process_result upload_result).messages) ∧
    (process_and_upload_async conv accounts process_result upload_result).conv.state ≠ "processing" := by
  unfold process_and_upload_async
  simp only [get_upload_data, hacct, haud]
  rcases process_result with e | v
  · exact ⟨rfl, ⟨e, by simp⟩, by simp [reset, db_commit, cleared_row]⟩
  · rcases upload_result with e | u
    · exact ⟨rfl, ⟨e, by simp⟩, by simp [reset, db_commit, cleared_row]⟩
    · rcases hexc with ⟨e, he⟩ | ⟨e, he⟩ <;> cases he

/-- A conversation that has reached `processing` with all fields set, used
to witness C3 and C8. -/
def c3_conv : Conversation :=
  { state := "processing", account_id := some 1, audio_path := some "/tmp/a.mp3",
    title := some "T", description := some "D", thumbnail_path := none,
    privacy := "public", youtube_url := none }

/-- Account table fixture for the C3 witness. -/
def c3_accounts : List Account := [{ id := 1, name := "Chan", credentials_path := "/creds/c.pickle" }]

/-- Witness for C3: the audio-processing collaborator raises `boom`; the run
ends reset to `idle` with the error text sent. -/
theorem C3_orchestrator_failure_resets_to_idle_witness :
    find_account_by_id c3_accounts c3_conv.account_id =
      some { id := 1, name := "Chan", credentials_path := "/creds/c.pickle" } ∧
    c3_conv.audio_path = some "/tmp/a.mp3" ∧
    ((∃ e, (Except.error "boom" : Except String String) = .error e) ∨
     (∃ e, (Except.ok "https://u" : Except String String) = .error e)) ∧
    ((process_and_upload_async c3_conv c3_accounts (.error "boom") (.ok "https://u")).conv.state = "idle" ∧
     (∃ e, ("Error processing upload: " ++ e) ∈
       (process_and_upload_async c3_conv c3_accounts (.error "boom") (.ok "https://u")).messages) ∧
     (process_and_upload_async c3_conv c3_accounts (.error "boom") (.ok "https://u")).conv.state ≠ "processing") :=
  ⟨by decide, by decide, Or.inl ⟨"boom", rfl⟩,
   C3_orchestrator_failure_resets_to_idle c3_conv c3_accounts (.error "boom") (.ok "https://u")
     ⟨1, "Chan", "/creds/c.pickle"⟩ "/tmp/a.mp3" (by decide) (by decide) (Or.inl ⟨"boom", rfl⟩)⟩

/-! Claim C4. -/

/-- A conversation awaiting the title, used for C4. -/
def c4_conv : Conversation :=
  { state := "awaiting_title", account_id := some 1, audio_path := some "/tmp/a.mp3",
    title := none, description := none, thumbnail_path := none,
    privacy := "public", youtube_url := none }

/-- Manager fixture for C4. -/
def c4_m : Mgr :=
  { mem := c4_conv, db := c4_conv,
    accounts := [{ id := 1, name := "Chan", credentials_path := "/creds/c.pickle" }] }

/-- C4 counterexample: calling `process_message` itself in state
`awaiting_title` with the text `My Song` advances the state but stores no
title — the stored-title half of the claim is false of `process`. -/
theorem C4_process_alone_stores_no_title :
    (process_message c4_m "My Song" none none).1.db.title = none ∧
    (process_message c4_m "My Song" none none).1.mem.title = none ∧
    (process_message c4_m "My Song" none none).1.db.state = "awaiting_description" := by decide

/-- C4 amended: the title is stored by the webhook caller, not by
`process_message`: for a text-only webhook update in state
`awaiting_title` whose text is not a global command, the caller's
`set_title` persists the trimmed text and the dispatch advances the state
to `awaiting_description`. (The Telethon entry point never calls
`set_title`, which is claim C1's finding.) -/
theorem C4_webhook_caller_stores_title (m : Mgr) (text : String)
    (hstate : m.mem.state = "awaiting_title")
    (hcmd : lowerStr (stripStr text) ∉
      (["cancel", "stop", "quit", "help", "?", "accounts"] : List String)) :
    (telegram_webhook_text m text).1.db.title = some (stripStr text) ∧
    (telegram_webhook_text m text).1.db.state = "awaiting_description" := by
  simp only [List.mem_cons, List.mem_singleton, not_or] at hcmd
  obtain ⟨h1, h2, h3, h4, h5, h6⟩ := hcmd
  simp [telegram_webhook_text, set_title, process_message, _dispatch_state,
    _handle_awaiting_title, hstate, h1, h2, h3, h4, h5, h6, db_commit]

/-- Witness for the amended C4 at the concrete text `" My Song "`. -/
theorem C4_webhook_caller_stores_title_witness :
    c4_m.mem.state = "awaiting_title" ∧
    lowerStr (stripStr " My Song ") ∉
      (["cancel", "stop", "quit", "help", "?", "accounts"] : List String) ∧
    ((telegram_webhook_text c4_m " My Song ").1.db.title = some "My Song" ∧
     (telegram_webhook_text c4_m " My Song ").1.db.state = "awaiting_description") :=
  ⟨by decide, by decide, C4_webhook_caller_stores_title c4_m " My Song " (by decide) (by decide)⟩

/-! Claim C5. -/

/-- A conversation awaiting an account choice and already carrying an old
audio path and a legacy URL, used for the C5 counterexample. -/
def c5_conv : Conversation :=
  { state := "awaiting_account", account_id := none, audio_path := some "/tmp/old.mp3",
    title := none, description := none, thumbnail_path := none,
    privacy := "public", youtube_url := some "https://youtu.be/old" }

/-- Manager fixture for the C5 counterexample: two accounts, so
`awaiting_account` is the natural state. -/
def c5_m : Mgr :=
  { mem := c5_conv, db := c5_conv,
    accounts := [⟨1, "A", "/creds/a.pickle"⟩, ⟨2, "B", "/creds/b.pickle"⟩] }

/-- C5 counterexample: in state `awaiting_account` — not one of the two
audio-arrival states — a message with an audio reference attached still
overwrites the persisted `audio_path` and clears the persisted legacy URL,
because `process_message` stores them before the state check and the
account-choice handler then commits. -/
theorem C5_audio_mutation_persists_outside_audio_states :
    c5_m.db.audio_path = some "/tmp/old.mp3" ∧
    c5_m.db.youtube_url = some "https://youtu.be/old" ∧
    (process_message c5_m "1" none (some "/tmp/new.mp3")).1.db.audio_path = some "/tmp/new.mp3" ∧
    (process_message c5_m "1" none (some "/tmp/new.mp3")).1.db.youtube_url = none ∧
    (process_message c5_m "1" none (some "/tmp/new.mp3")).1.db.state = "awaiting_title" := by decide

/-- C5 amended: the audio-arrival mutation is not limited to `idle` and
`awaiting_audio` — in every other state a non-command message with an
audio reference still stores the reference on the conversation object and
clears the legacy URL (unless the state handler resets the conversation
outright), and the mutation is persisted whenever that handler commits;
only the account-selection/advance part of the audio-arrival rule is
limited to the two audio states. -/
theorem C5_audio_stored_in_every_state (m : Mgr) (message : String)
    (media_url : Option String) (ap : String)
    (hstate : m.mem.state ∉ (["idle", "awaiting_audio"] : List String))
    (hcmd : lowerStr (stripStr message) ∉
      (["cancel", "stop", "quit", "help", "?", "accounts"] : List String)) :
    ((process_message m message media_url (some ap)).1.mem.audio_path = some ap ∧
     (process_message m message media_url (some ap)).1.mem.youtube_url = none) ∨
    (process_message m message media_url (some ap)).1.mem = cleared_row := by
  simp only [List.mem_cons, List.mem_singleton, not_or] at hcmd hstate
  obtain ⟨h1, h2, h3, h4, h5, h6⟩ := hcmd
  obtain ⟨hs1, hs2, -⟩ := hstate
  have key : process_message m message media_url (some ap) =
      _dispatch_state { m with mem := { m.mem with audio_path := some ap, youtube_url := none } }
        m.mem.state message (lowerStr (stripStr message)) media_url (some ap) := by
    rw [process_message]
    simp [h1, h2, h3, h4, h5, h6, hs1, hs2]
  rw [key]
  exact dispatch_frame _ _ _ _ _ _ hs1 hs2

/-- Witness for the amended C5: in state `processing` the in-memory object
ends with the new audio path stored and the legacy URL cleared. -/
theorem C5_audio_stored_in_every_state_witness :
    c3_conv.state ∉ (["idle", "awaiting_audio"] : List String) ∧
    lowerStr (stripStr "hello") ∉
      (["cancel", "stop", "quit", "help", "?", "accounts"] : List String) ∧
    (((process_message ⟨c3_conv, c3_conv, c3_accounts⟩ "hello" none (some "/tmp/n.mp3")).1.mem.audio_path =
        some "/tmp/n.mp3" ∧
      (process_message ⟨c3_conv, c3_conv, c3_accounts⟩ "hello" none (some "/tmp/n.mp3")).1.mem.youtube_url =
        none) ∨
     (process_message ⟨c3_conv, c3_conv, c3_accounts⟩ "hello" none (some "/tmp/n.mp3")).1.mem = cleared_row) :=
  ⟨by decide, by decide,
   C5_audio_stored_in_every_state ⟨c3_conv, c3_conv, c3_accounts⟩ "hello" none "/tmp/n.mp3"
     (by decide) (by decide)⟩

/-! Claim C6. -/

/-- Manager fixture for the C6 counterexample: a fresh `idle` conversation
with exactly one configured account. -/
def c6_m : Mgr :=
  { mem := cleared_row, db := cleared_row,
    accounts := [{ id := 3, name := "Solo", credentials_path := "/creds/s.pickle" }] }

/-- C6 counterexample: with exactly one account and an audio reference
attached, a message whose text is `cancel` does not reach `awaiting_title`
— the global command wins, the conversation resets to `idle` and no
account is selected. The claim as stated quantifies over every call with
an audio reference and is therefore false. -/
theorem C6_command_text_beats_audio :
    (process_message c6_m "cancel" none (some "/tmp/song.mp3")).1.db.state = "idle" ∧
    (process_message c6_m "cancel" none (some "/tmp/song.mp3")).1.db.account_id = none ∧
    (process_message c6_m "cancel" none (some "/tmp/song.mp3")).1.db.state ≠ "awaiting_title" := by decide

/-- C6 amended: in state `idle` or `awaiting_audio` with exactly one
configured account, a message carrying an audio reference whose text is
not a global command moves the persisted state to `awaiting_title` and
auto-selects that account. -/
theorem C6_single_account_autoselect (m : Mgr) (message : String)
    (media_url : Option String) (ap : String) (a : Account)
    (hacc : m.accounts = [a])
    (hstate : m.mem.state = "idle" ∨ m.mem.state = "awaiting_audio")
    (hcmd : lowerStr (stripStr message) ∉
      (["cancel", "stop", "quit", "help", "?", "accounts"] : List String)) :
    (process_message m message media_url (some ap)).1.db.state = "awaiting_title" ∧
    (process_message m message media_url (some ap)).1.db.account_id = some a.id := by
  simp only [List.mem_cons, List.mem_singleton, not_or] at hcmd
  obtain ⟨h1, h2, h3, h4, h5, h6⟩ := hcmd
  rcases hstate with hs | hs <;>
    simp [process_message, hs, h1, h2, h3, h4, h5, h6, _audio_account_select, hacc, db_commit]

/-- Witness for the amended C6: the bare audio message (empty text) in
state `idle` with the single account `Solo`. -/
theorem C6_single_account_autoselect_witness :
    c6_m.accounts = [{ id := 3, name := "Solo", credentials_path := "/creds/s.pickle" }] ∧
    (c6_m.mem.state = "idle" ∨ c6_m.mem.state = "awaiting_audio") ∧
    lowerStr (stripStr "") ∉
      (["cancel", "stop", "quit", "help", "?", "accounts"] : List String) ∧
    ((process_message c6_m "" none (some "/tmp/song.mp3")).1.db.state = "awaiting_title" ∧
     (process_message c6_m "" none (some "/tmp/song.mp3")).1.db.account_id = some 3) :=
  ⟨by decide, Or.inl (by decide), by decide,
   C6_single_account_autoselect c6_m "" none "/tmp/song.mp3"
     ⟨3, "Solo", "/creds/s.pickle"⟩ (by decide) (Or.inl (by decide)) (by decide)⟩

/-! Claim C7. -/

/-- A conversation in state `adding_account`, no accounts yet, for the C7
counterexample and part of its witness. -/
def c7_conv : Conversation :=
  { state := "adding_account", account_id := none, audio_path := none,
    title := none, description := none, thumbnail_path := none,
    privacy := "public", youtube_url := none }

/-- Manager fixture: `adding_account`, empty account table. -/
def c7_m : Mgr := { mem := c7_conv, db := c7_conv, accounts := [] }

/-- Manager fixture: `adding_account` with the account `MusicChannel`
already present. -/
def c7_m_dup : Mgr :=
  { mem := c7_conv, db := c7_conv,
    accounts := [{ id := 1, name := "MusicChannel", credentials_path := "/creds/m.pickle" }] }

/-- C7 counterexample: two non-empty texts that are not existing account
names and yet yield no `create_account` side-action — `cancel` is consumed
by the global command (resetting to `idle`), and a whitespace-only text
trims to the empty string and merely reprompts. The claim as stated
quantifies over every non-empty text and is therefore false. -/
theorem C7_command_and_blank_text_yield_no_side_action :
    (process_message c7_m "cancel" none none).2 =
      Response.text "Cancelled. Send 'upload' to start." ∧
    (process_message c7_m "cancel" none none).1.db.state = "idle" ∧
    (process_message c7_m "   " none none).2 =
      Response.text "Please enter a valid account name." ∧
    (process_message c7_m "   " none none).1.db.state = "adding_account" := by decide

/-- C7 amended: in state `adding_account`, for a message whose trimmed text
is non-empty and whose trimmed lowercased text is not a global command —
if the trimmed text matches no existing account name, `process_message`
returns the side-action `{action: create_account, account_name: trimmed
text}` with the in-memory state still `adding_account` and nothing
persisted; if it matches an existing account's name, the conversation is
reset to `idle` with the already-exists notice and no side-action. -/
theorem C7_adding_account_round_trip (m : Mgr) (message : String)
    (media_url audio_path : Option String)
    (hstate : m.mem.state = "adding_account")
    (hcmd : lowerStr (stripStr message) ∉
      (["cancel", "stop", "quit", "help", "?", "accounts"] : List String))
    (hne : stripStr message ≠ "") :
    ((m.accounts.find? (fun a => a.name == stripStr message)).isSome = false →
      (process_message m message media_url audio_path).2 =
        Response.action "create_account" (stripStr message) ∧
      (process_message m message media_url audio_path).1.mem.state = "adding_account" ∧
      (process_message m message media_url audio_path).1.db = m.db) ∧
    ((m.accounts.find? (fun a => a.name == stripStr message)).isSome = true →
      (process_message m message media_url audio_path).1.db = cleared_row ∧
      (process_message m message media_url audio_path).2 =
        Response.text ("Account '" ++ stripStr message ++ "' already exists.")) := by
  simp only [List.mem_cons, List.mem_singleton, not_or] at hcmd
  obtain ⟨h1, h2, h3, h4, h5, h6⟩ := hcmd
  constructor
  · intro hfind
    cases audio_path <;>
      simp [process_message, _dispatch_state, _handle_adding_account, hstate,
        h1, h2, h3, h4, h5, h6, hne, hfind, reset, db_commit]
  · intro hfind
    cases audio_path <;>
      simp [process_message, _dispatch_state, _handle_adding_account, hstate,
        h1, h2, h3, h4, h5, h6, hne, hfind, reset, db_commit]

/-- Witness for the amended C7: the fresh name `" MyChannel "` yields
exactly the side-action with the trimmed name, and the duplicate name
`MusicChannel` resets with the already-exists notice. -/
theorem C7_adding_account_round_trip_witness :
    c7_m.mem.state = "adding_account" ∧
    lowerStr (stripStr " MyChannel ") ∉
      (["cancel", "stop", "quit", "help", "?", "accounts"] : List String) ∧
    stripStr " MyChannel " ≠ "" ∧
    ((process_message c7_m " MyChannel " none none).2 =
       Response.action "create_account" "MyChannel" ∧
     (process_message c7_m " MyChannel " none none).1.mem.state = "adding_account" ∧
     (process_message c7_m " MyChannel " none none).1.db = c7_m.db) ∧
    ((process_message c7_m_dup "MusicChannel" none none).1.db = cleared_row ∧
     (process_message c7_m_dup "MusicChannel" none none).2 =
       Response.text "Account 'MusicChannel' already exists.") :=
  ⟨by decide, by decide, by decide,
   (C7_adding_account_round_trip c7_m " MyChannel " none none
      (by decide) (by decide) (by decide)).1 (by decide),
   (C7_adding_account_round_trip c7_m_dup "MusicChannel" none none
      (by decide) (by decide) (by decide)).2 (by decide)⟩

/-! Claim C8. -/

/-- C8: running the orchestrator on a conversation already reset to `idle`
(account and audio cleared) invokes neither the audio-processing
collaborator nor the publish collaborator. -/
theorem C8_idle_run_invokes_no_collaborators (conv : Conversation) (accounts : List Account)
    (process_result upload_result : Except String String)
    (hstate : conv.state = "idle") (hacc : conv.account_id = none)
    (haud : conv.audio_path = none) :
    (process_and_upload_async conv accounts process_result upload_result).process_called = false ∧
    (process_and_upload_async conv accounts process_result upload_result).upload_called = false := by
  unfold process_and_upload_async
  simp [get_upload_data, find_account_by_id, hacc]

/-- Witness for C8 on the freshly cleared row with a populated account
table. -/
theorem C8_idle_run_invokes_no_collaborators_witness :
    cleared_row.state = "idle" ∧ cleared_row.account_id = none ∧ cleared_row.audio_path = none ∧
    ((process_and_upload_async cleared_row c3_accounts (.ok "/tmp/v.mp4") (.ok "https://u")).process_called = false ∧
     (process_and_upload_async cleared_row c3_accounts (.ok "/tmp/v.mp4") (.ok "https://u")).upload_called = false) :=
  ⟨by decide, by decide, by decide,
   C8_idle_run_invokes_no_collaborators cleared_row c3_accounts (.ok "/tmp/v.mp4") (.ok "https://u")
     (by decide) (by decide) (by decide)⟩

/-! Claim C9. -/

/-- C9: a code submission through `/auth/code` while `waiting_for_code` is
false, or a password submission through `/auth/password` while
`waiting_for_password` is false, is rejected with an error body, and the
whole handshake state — pending values, events and flags — is returned
unchanged, `submit_code`/`submit_password` never having run. -/
theorem C9_submission_rejected_when_not_waiting (s : AuthState) (code password : String) :
    (s.waiting_for_code = false →
      submit_auth_code s code = (s, .rejected "Not waiting for a verification code")) ∧
    (s.waiting_for_password = false →
      submit_auth_password s password = (s, .rejected "Not waiting for a 2FA password")) := by
  constructor
  · intro h
    simp [submit_auth_code, h]
  · intro h
    simp [submit_auth_password, h]

/-- The handshake state right after process start (telethon_client.py
lines 31-39), used to witness C9. -/
def auth_s0 : AuthState :=
  { is_running := false, waiting_for_code := false, waiting_for_password := false,
    pending_code := none, pending_password := none,
    auth_code_event := false, auth_password_event := false }

/-- Witness for C9 at the start-up handshake state. -/
theorem C9_submission_rejected_when_not_waiting_witness :
    auth_s0.waiting_for_code = false ∧
    submit_auth_code auth_s0 "12345" = (auth_s0, .rejected "Not waiting for a verification code") ∧
    auth_s0.waiting_for_password = false ∧
    submit_auth_password auth_s0 "hunter2" = (auth_s0, .rejected "Not waiting for a 2FA password") :=
  ⟨by decide,
   (C9_submission_rejected_when_not_waiting auth_s0 "12345" "hunter2").1 (by decide),
   by decide,
   (C9_submission_rejected_when_not_waiting auth_s0 "12345" "hunter2").2 (by decide)⟩

/-! Claim C10. -/

/-- C10: `process_message` never returns a `create_account` side-action
whose account name is one of the global command words — the command check
runs before the `adding_account` handler, the returned name is the trimmed
message, and each command word is fixed by lower-casing — so no account
can acquire such a name through the message interface. -/
theorem C10_no_global_command_account_name (m : Mgr) (message : String)
    (media_url audio_path : Option String) (n : String)
    (h : (process_message m message media_url audio_path).2 = Response.action "create_account" n) :
    n ∉ (["cancel", "stop", "quit", "help", "?", "accounts"] : List String) := by
  obtain ⟨hn, hcmd⟩ := process_action_shape m message media_url audio_path _ n h
  intro hmem
  apply hcmd
  subst hn
  rcases (by simpa using hmem : stripStr message = "cancel" ∨ stripStr message = "stop" ∨
      stripStr message = "quit" ∨ stripStr message = "help" ∨ stripStr message = "?" ∨
      stripStr message = "accounts") with h1 | h1 | h1 | h1 | h1 | h1 <;>
    rw [h1] <;> decide

/-- Manager fixture for the C10 witness: `adding_account`, empty table. -/
def c10_m : Mgr := { mem := c7_conv, db := c7_conv, accounts := [] }

/-- Witness for C10: a real side-action return, whose name `NewChan` is
then no global command word. -/
theorem C10_no_global_command_account_name_witness :
    (process_message c10_m "NewChan" none none).2 = Response.action "create_account" "NewChan" ∧
    "NewChan" ∉ (["cancel", "stop", "quit", "help", "?", "accounts"] : List String) :=
  ⟨by decide,
   C10_no_global_command_account_name c10_m "NewChan" none none "NewChan" (by decide)⟩
